import Mathlib

set_option autoImplicit false

/-!
Verification development for the TaxProtest ETL pipeline
(`data/etl_pipeline/`): shallow embeddings of the transform, download,
load, fixtures-aggregation and orchestration code, with theorems checking
the natural-language specification against the code.

Conventions:
* Python strings are Lean `String`s; byte streams are `List Nat` with each
  element < 256 (the bound is irrelevant to the proved facts).
* Python floats are modelled as `ℚ` (all constants involved are exact
  decimals; no rounding behaviour is at stake in any claim).
* Exceptions are modelled with `Except`; a Python `try/except` that stores
  the message on a result object becomes a `match` on the `Except` value.
* Run-time oracles (network responses, database batch failures) are
  explicit function parameters.
-/

namespace TaxProtestETL

/-! ## Shared Python-string helpers

`pyStrip` models `str.strip()`, `pySplitWs` models `str.split()` with no
argument (split on whitespace runs, dropping empties), `splitOnChar`
models `str.split(sep)` for a one-character separator, and `pyToLower`
models `str.lower()` for the ASCII range used by checksum strings. -/

/-- Whitespace characters recognised by `str.strip()` / `str.split()`
(ASCII subset; all inputs in this development are ASCII). -/
def isPyWs (c : Char) : Bool :=
  c = ' ' || c = '\t' || c = '\n' || c = '\r' || c = Char.ofNat 11 || c = Char.ofNat 12

/-- `str.strip()` on a character list. -/
def pyStripList (cs : List Char) : List Char :=
  ((cs.dropWhile isPyWs).reverse.dropWhile isPyWs).reverse

/-- `str.strip()`. -/
def pyStrip (s : String) : String :=
  String.mk (pyStripList s.toList)

/-- Helper for `str.split()` with no argument: accumulate maximal runs of
non-whitespace characters. -/
def pySplitWsAux : List Char → List Char → List (List Char)
  | [], acc => if acc.isEmpty then [] else [acc.reverse]
  | c :: cs, acc =>
    if isPyWs c then
      if acc.isEmpty then pySplitWsAux cs []
      else acc.reverse :: pySplitWsAux cs []
    else pySplitWsAux cs (c :: acc)

/-- `str.split()` with no argument. -/
def pySplitWs (s : String) : List String :=
  (pySplitWsAux s.toList []).map String.mk

/-- Helper for `str.split(sep)` with a one-character separator. -/
def splitOnCharAux (sep : Char) : List Char → List Char → List (List Char)
  | [], acc => [acc.reverse]
  | c :: cs, acc =>
    if c = sep then acc.reverse :: splitOnCharAux sep cs []
    else splitOnCharAux sep cs (c :: acc)

/-- `str.split(sep)` for a one-character separator (keeps empty pieces,
like Python). -/
def splitOnChar (sep : Char) (s : String) : List String :=
  (splitOnCharAux sep s.toList []).map String.mk

/-- `str.lower()` (ASCII). -/
def pyToLower (s : String) : String :=
  String.mk (s.toList.map Char.toLower)

/-- Number of occurrences of a character in a string
(`sample.count(d)` in Python). -/
def countChar (s : String) (c : Char) : Nat :=
  s.toList.count c

/-! ## Claim C9 — `DataTransformer._sniff_delimiter`

Source (`transform.py` lines 122-127):

```
candidates = ['\t', '|', ',']
counts = {d: sample.count(d) for d in candidates}
return max(counts, key=lambda d: (counts[d], 1 if d in ('\t', '|') else 0))
```

Python `max` scans in insertion order and keeps the first element whose
key is maximal, comparing keys lexicographically. -/

/-- The sort key `(counts[d], 1 if d in (tab, pipe) else 0)`. -/
def sniffKey (sample : String) (d : Char) : Nat × Nat :=
  (countChar sample d, if d = '\t' || d = '|' then 1 else 0)

/-- Strict lexicographic comparison of sort keys; `max` replaces the
running best only on a strictly greater key. -/
def keyGt (a b : Nat × Nat) : Bool :=
  decide (b.1 < a.1) || (decide (a.1 = b.1) && decide (b.2 < a.2))

/-- The candidate list `['\t', '|', ',']`. -/
def sniffCandidates : List Char := ['\t', '|', ',']

/-- Python `max(iterable, key=...)`: first element with maximal key. -/
def pyMaxBy (key : Char → Nat × Nat) : List Char → Option Char
  | [] => none
  | c :: cs =>
    some (cs.foldl (fun best d => if keyGt (key d) (key best) then d else best) c)

/-- `DataTransformer._sniff_delimiter`. -/
def sniffDelimiter (sample : String) : Char :=
  (pyMaxBy (sniffKey sample) sniffCandidates).getD ','

theorem sniffDelimiter_comma : sniffDelimiter "a,b,c\n1,2,3" = ',' := by decide

theorem sniffDelimiter_tab : sniffDelimiter "a\tb\tc\n1\t2\t3" = '\t' := by decide

/-- Helper: unfolding the three-candidate fold. -/
theorem sniffDelimiter_eq (sample : String) :
    sniffDelimiter sample =
      (if keyGt (sniffKey sample '|') (sniffKey sample '\t') then
        (if keyGt (sniffKey sample ',')
            (sniffKey sample '|') then ',' else '|')
      else
        (if keyGt (sniffKey sample ',')
            (sniffKey sample '\t') then ',' else '\t')) := by
  by_cases h1 : keyGt (sniffKey sample '|') (sniffKey sample '\t') <;>
    by_cases h2 : keyGt (sniffKey sample ',') (sniffKey sample '|') <;>
    by_cases h3 : keyGt (sniffKey sample ',') (sniffKey sample '\t') <;>
    simp [sniffDelimiter, pyMaxBy, sniffCandidates, h1, h2, h3]

/-- C9: the sniffer counts occurrences of tab, pipe and comma, returns a
candidate of maximal count, prefers tab/pipe over comma on a count tie
(so an equal-count comma/tab sample resolves to tab, never comma), and on
the two concrete samples of the claim returns comma and tab
respectively. -/
theorem sniff_delimiter_spec (sample : String) :
    sniffDelimiter sample ∈ sniffCandidates ∧
    (∀ d ∈ sniffCandidates,
      countChar sample d ≤ countChar sample (sniffDelimiter sample)) ∧
    (countChar sample '\t' = countChar sample ',' →
      sniffDelimiter sample ≠ ',') ∧
    sniffDelimiter "a,b,c\n1,2,3" = ',' ∧
    sniffDelimiter "a\tb\tc\n1\t2\t3" = '\t' := by
  refine ⟨?_, ?_, ?_, by decide, by decide⟩
  · rw [sniffDelimiter_eq]
    split_ifs <;> simp [sniffCandidates]
  · intro d hd
    rw [sniffDelimiter_eq]
    simp only [sniffCandidates, List.mem_cons, List.not_mem_nil, or_false] at hd
    rcases hd with h | h | h <;> subst h <;>
      split_ifs with h1 h2 h2 <;>
      simp only [keyGt, sniffKey, Bool.or_eq_true, Bool.and_eq_true,
        decide_eq_true_eq, not_or, not_and, Bool.not_eq_true,
        decide_eq_false_iff_not, not_lt] at h1 h2 ⊢ <;> omega
  · intro htie
    rw [sniffDelimiter_eq]
    split_ifs with h1 h2 h2 <;>
      (simp only [keyGt, sniffKey, Bool.or_eq_true, Bool.and_eq_true,
        decide_eq_true_eq, not_or, not_and, Bool.not_eq_true,
        decide_eq_false_iff_not, not_lt] at h1 h2
       simp_all
       all_goals omega)

/-- Witness for `sniff_delimiter_spec` at a concrete sample with an equal
number of commas and tabs (one of each): the tie resolves away from
comma. -/
theorem sniff_delimiter_spec_witness :
    countChar "a\tb,c" '\t' = countChar "a\tb,c" ',' ∧
    sniffDelimiter "a\tb,c" ≠ ',' :=
  ⟨by decide, (sniff_delimiter_spec "a\tb,c").2.2.1 (by decide)⟩

/-! ## Claim C10 — `DataTransformer._detect_encoding`

Source (`transform.py` lines 111-120): try each encoding of
`TransformConfig.encoding_fallbacks` in order on a sample read; return the
first that decodes without `UnicodeDecodeError`/`UnicodeError`; fall back
to latin-1 if all fail.  `_detect_encoding` never uses the decoded text,
only success/failure, so each codec is embedded as a success predicate on
the raw bytes. -/

/-- A UTF-8 continuation byte (`0x80..0xBF`). -/
def isCont (b : Nat) : Bool :=
  decide (0x80 ≤ b) && decide (b ≤ 0xBF)

/-- Strict UTF-8 validity, as enforced by Python `bytes.decode('utf-8')`:
ASCII, 2-byte `C2..DF`, 3-byte with the `E0`/`ED` overlong/surrogate
restrictions, 4-byte with the `F0`/`F4` range restrictions. -/
def utf8Valid : List Nat → Bool
  | [] => true
  | b :: bs =>
    if b ≤ 0x7F then utf8Valid bs
    else if 0xC2 ≤ b ∧ b ≤ 0xDF then
      match bs with
      | c1 :: bs2 => isCont c1 && utf8Valid bs2
      | [] => false
    else if b = 0xE0 then
      match bs with
      | c1 :: c2 :: bs3 =>
        (decide (0xA0 ≤ c1) && decide (c1 ≤ 0xBF)) && isCont c2 && utf8Valid bs3
      | _ => false
    else if (0xE1 ≤ b ∧ b ≤ 0xEC) ∨ (0xEE ≤ b ∧ b ≤ 0xEF) then
      match bs with
      | c1 :: c2 :: bs3 => isCont c1 && isCont c2 && utf8Valid bs3
      | _ => false
    else if b = 0xED then
      match bs with
      | c1 :: c2 :: bs3 =>
        (decide (0x80 ≤ c1) && decide (c1 ≤ 0x9F)) && isCont c2 && utf8Valid bs3
      | _ => false
    else if b = 0xF0 then
      match bs with
      | c1 :: c2 :: c3 :: bs4 =>
        (decide (0x90 ≤ c1) && decide (c1 ≤ 0xBF)) && isCont c2 && isCont c3 &&
          utf8Valid bs4
      | _ => false
    else if 0xF1 ≤ b ∧ b ≤ 0xF3 then
      match bs with
      | c1 :: c2 :: c3 :: bs4 => isCont c1 && isCont c2 && isCont c3 && utf8Valid bs4
      | _ => false
    else if b = 0xF4 then
      match bs with
      | c1 :: c2 :: c3 :: bs4 =>
        (decide (0x80 ≤ c1) && decide (c1 ≤ 0x8F)) && isCont c2 && isCont c3 &&
          utf8Valid bs4
      | _ => false
    else false

/-- The five byte values with no assigned character in cp1252; Python
raises `UnicodeDecodeError` exactly on these. -/
def cp1252Undefined : List Nat := [0x81, 0x8D, 0x8F, 0x90, 0x9D]

/-- Whether `bytes.decode(enc)` succeeds. latin-1 maps every byte 0..255
to the code point of the same value, so it always succeeds. -/
def decodeOk (enc : String) (bs : List Nat) : Bool :=
  if enc = "utf-8" then utf8Valid bs
  else if enc = "latin-1" then true
  else if enc = "cp1252" then bs.all (fun b => decide (b ∉ cp1252Undefined))
  else false

/-- `TransformConfig.encoding_fallbacks` default
(`config.py` lines 197-199). -/
def encodingFallbacks : List String := ["utf-8", "latin-1", "cp1252"]

/-- `DataTransformer._detect_encoding`: first fallback that decodes the
sample, else the hard-coded final latin-1 fallback. -/
def detectEncoding (fallbacks : List String) (bs : List Nat) : String :=
  match fallbacks.find? (fun enc => decodeOk enc bs) with
  | some enc => enc
  | none => "latin-1"

/-- C10: with the default fallback list, encoding detection always returns
utf-8 or latin-1; the cp1252 candidate and the final hard-coded latin-1
branch are unreachable because latin-1 decoding succeeds on every byte
sequence. -/
theorem detect_encoding_spec (bs : List Nat) :
    (detectEncoding encodingFallbacks bs = "utf-8" ∨
      detectEncoding encodingFallbacks bs = "latin-1") ∧
    detectEncoding encodingFallbacks bs ≠ "cp1252" ∧
    decodeOk "latin-1" bs = true := by
  have h : detectEncoding encodingFallbacks bs =
      (if utf8Valid bs then "utf-8" else "latin-1") := by
    unfold detectEncoding encodingFallbacks
    cases hu : utf8Valid bs <;> simp [List.find?, decodeOk, hu]
  rw [h]
  cases utf8Valid bs <;> simp [decodeOk]

/-! ## Claim C5 — `DownloadManager._calculate_delay`

Source (`download.py` lines 96-106):

```
delay = initial_delay * (exponential_base ** attempt)
delay = min(delay, max_delay)
if jitter: delay = delay * (0.5 + random.random())
```

`random.random()` is uniform on [0, 1), so the jitter factor
`0.5 + random.random()` ranges over [0.5, 1.5), not [0.5, 1.0]. -/

/-- `RetryConfig` (`config.py` lines 161-168), with floats as `ℚ`. -/
structure RetryConfigL where
  max_retries : Nat := 3
  initial_delay : ℚ := 1
  max_delay : ℚ := 60
  exponential_base : ℚ := 2
  jitter : Bool := true

/-- `DownloadManager._calculate_delay`, with the value returned by
`random.random()` passed in as `rand` (a uniform draw from [0, 1)). -/
def calculateDelay (cfg : RetryConfigL) (attempt : Nat) (rand : ℚ) : ℚ :=
  let delay := cfg.initial_delay * cfg.exponential_base ^ attempt
  let delay := min delay cfg.max_delay
  if cfg.jitter then delay * (1/2 + rand) else delay

/-- C5 counterexample: with the default retry configuration, attempt 0 and
the admissible draw `random.random() = 7/10`, the computed delay is 6/5,
which cannot be written as `min(maxDelay, initialDelay * base^0)` times
any jitter factor in [0.5, 1.0] — the claimed jitter interval is wrong. -/
theorem calculate_delay_claim_false :
    (0 : ℚ) ≤ 7/10 ∧ (7/10 : ℚ) < 1 ∧
    calculateDelay {} 0 (7/10) = 6/5 ∧
    ¬ ∃ f : ℚ, 1/2 ≤ f ∧ f ≤ 1 ∧
      calculateDelay {} 0 (7/10) =
        min ((1 : ℚ) * 2 ^ (0 : ℕ)) 60 * f := by
  refine ⟨by norm_num, by norm_num, by norm_num [calculateDelay], ?_⟩
  rintro ⟨f, hf1, hf2, hf3⟩
  rw [show calculateDelay {} 0 (7/10) = 6/5 by norm_num [calculateDelay]] at hf3
  rw [show min ((1 : ℚ) * 2 ^ (0 : ℕ)) 60 = 1 by norm_num] at hf3
  rw [one_mul] at hf3
  linarith

/-- C5 amended: the pre-jitter delay equals
`min(maxDelay, initialDelay * base^attempt)` exactly as claimed; when
jitter is enabled the delay is that value multiplied by `0.5 + u` with
`u = random.random()` uniform in [0, 1), so the jitter factor lies in
[0.5, 1.5), not [0.5, 1.0]. -/
theorem calculate_delay_amended (cfg : RetryConfigL) (attempt : Nat) (rand : ℚ)
    (h0 : 0 ≤ rand) (h1 : rand < 1) :
    (cfg.jitter = false →
      calculateDelay cfg attempt rand =
        min (cfg.initial_delay * cfg.exponential_base ^ attempt) cfg.max_delay) ∧
    (cfg.jitter = true →
      calculateDelay cfg attempt rand =
        min (cfg.initial_delay * cfg.exponential_base ^ attempt) cfg.max_delay *
          (1/2 + rand) ∧
      1/2 ≤ 1/2 + rand ∧ 1/2 + rand < 3/2) := by
  constructor
  · intro hj; simp [calculateDelay, hj]
  · intro hj
    refine ⟨by simp [calculateDelay, hj], by linarith, by linarith⟩

/-- Witness for `calculate_delay_amended` at the default configuration,
attempt 2 and draw 0: the jittered delay is `min(60, 4) * 1/2 = 2`. -/
theorem calculate_delay_amended_witness :
    calculateDelay {} 2 0 =
      min ((1 : ℚ) * 2 ^ (2 : ℕ)) 60 * (1/2 + 0) ∧
    (1/2 : ℚ) ≤ 1/2 + 0 ∧ (1/2 + 0 : ℚ) < 3/2 :=
  (calculate_delay_amended {} 2 0 (by norm_num) (by norm_num)).2 rfl

/-! ## Claim C8 — `DataTransformer._coerce_value`, `str` branch

Source (`transform.py` lines 164-206).  For a `str`-typed field the code
strips (`strip_fields`), whitespace-normalizes
(`' '.join(value.split())`, `normalize_whitespace`) and then truncates
with `result[:max_length]` — with no strip after the truncation, so a cut
that lands on a space keeps that space.  (`if field_schema.max_length:`
makes a configured 0 behave as "no truncation", like Python falsiness.) -/

/-- `FieldSchema` restricted to the parts the `str` branch of
`_coerce_value` reads.  `default` is the configured fallback value. -/
structure StrFieldSchema where
  name : String
  max_length : Option Nat := none
  dflt : Option String := none

/-- `DataTransformer._coerce_value` for a `str`-typed field.  `value` is
`none` for Python `None`; `stripFields` and `normalizeWhitespace` are
`TransformConfig.strip_fields` / `.normalize_whitespace`. -/
def coerceValueStr (stripFields normalizeWhitespace : Bool)
    (fs : StrFieldSchema) (value : Option String) : Option String :=
  match value with
  | none => fs.dflt
  | some v =>
    if v = "" then fs.dflt
    else
      let v := if stripFields then pyStrip v else v
      let v := if normalizeWhitespace then
        String.intercalate " " (pySplitWs v) else v
      match fs.max_length with
      | some n => if n = 0 then some v else some (v.take n)
      | none => some v

/-- C8: coercing `"  Test Name Here  "` through a `str` field with
`maxLength = 10`, stripping and whitespace normalization enabled, yields
`"Test Name "` — ten characters ending in a space — not the claimed
`"Test Name"`.  The repository's own unit test
(`test_etl_pipeline.py::test_transform_row`) asserts `"Test Name"`, so
the code contradicts its own test: the truncation keeps the trailing
space. -/
theorem coerce_value_str_truncation :
    coerceValueStr true true
        { name := "name", max_length := some 10 }
        (some "  Test Name Here  ") = some "Test Name " ∧
    coerceValueStr true true
        { name := "name", max_length := some 10 }
        (some "  Test Name Here  ") ≠ some "Test Name" := by
  constructor <;> decide

/-! ## Claim C6 — `DownloadManager.download_file` checksum short-circuit

Source (`download.py` lines 125-201 and 203-270).  The retry loop calls
`_download_with_progress`; on a checksum mismatch that helper unlinks the
written file and raises `ChecksumError`, which the loop catches with
`break` (never retried); the loop epilogue returns a failed
`DownloadResult` carrying the attempt count.

The network is an oracle `fetch : Nat → Except String (List Nat)` giving
each attempt's response body (or a `requests.RequestException` message);
the URL-resolution preamble (year substitution, HEAD probe) only chooses
the URL and is independent of the per-attempt control flow verified
here.  `fs` is the state of the destination path: `none` when no file
exists. -/

/-- `DataSource` restricted to the fields `download_file` reads. -/
structure DataSourceL where
  name : String := "src"
  required : Bool := true
  checksum : Option String := none

/-- `DownloadResult` (`download.py` lines 27-41), minus timing. -/
structure DownloadResultL where
  success : Bool
  error : Option String := none
  bytes_downloaded : Nat := 0
  checksum_verified : Bool := false
  attempts : Nat := 1

/-- Exceptions that can escape `_download_with_progress`. -/
inductive AttemptExc where
  | request (msg : String)
  | checksum (msg : String)

/-- `DownloadManager.verify_checksum`: case-insensitive hash
comparison. -/
def verifyChecksum (hashOf : List Nat → String) (contents : List Nat)
    (expected : String) : Bool :=
  pyToLower (hashOf contents) = pyToLower expected

/-- `DownloadManager._download_with_progress`: write the body to the
destination, then — when a checksum is configured — verify it, deleting
the file and raising `ChecksumError` on mismatch.  Returns the new
destination-file state alongside the outcome. -/
def downloadWithProgress (hashOf : List Nat → String) (source : DataSourceL)
    (body : Except String (List Nat)) (attempts : Nat)
    (fs : Option (List Nat)) :
    Except AttemptExc DownloadResultL × Option (List Nat) :=
  match body with
  | .error msg => (.error (.request msg), fs)
  | .ok bytes =>
    let fs := some bytes
    match source.checksum with
    | some expected =>
      if verifyChecksum hashOf bytes expected then
        (.ok { success := true, bytes_downloaded := bytes.length,
               checksum_verified := true, attempts := attempts }, fs)
      else
        (.error (.checksum ("Checksum mismatch for " ++ source.name)), none)
    | none =>
      (.ok { success := true, bytes_downloaded := bytes.length,
             attempts := attempts }, fs)

/-- The retry loop of `download_file`: `remaining` counts loop iterations
left (`max_retries + 1` at entry), `attempt` the 0-based attempt index. -/
def downloadFileGo (hashOf : List Nat → String) (source : DataSourceL)
    (fetch : Nat → Except String (List Nat)) :
    Nat → Nat → Nat → Option String → Option (List Nat) →
      DownloadResultL × Option (List Nat)
  | 0, _attempt, attempts, lastErr, fs =>
    ({ success := false, error := lastErr, attempts := attempts }, fs)
  | remaining + 1, attempt, attempts, _lastErr, fs =>
    let attempts := attempts + 1
    match downloadWithProgress hashOf source (fetch attempt) attempts fs with
    | (.ok res, fs') => (res, fs')
    | (.error (.request msg), fs') =>
      -- retried after the backoff sleep
      downloadFileGo hashOf source fetch remaining (attempt + 1) attempts
        (some msg) fs'
    | (.error (.checksum msg), fs') =>
      -- `break`: checksum failures are never retried
      ({ success := false, error := some msg, attempts := attempts }, fs')

/-- `DownloadManager.download_file` (retry loop and epilogue), returning
the result together with the final destination-file state. -/
def downloadFile (hashOf : List Nat → String) (source : DataSourceL)
    (fetch : Nat → Except String (List Nat)) (maxRetries : Nat) :
    DownloadResultL × Option (List Nat) :=
  downloadFileGo hashOf source fetch (maxRetries + 1) 0 0 none none

/-- C6: when a checksum is configured and the first attempt downloads a
body whose hash does not match it, `download_file` returns a failed
result after exactly one attempt, and the downloaded file has been
deleted from disk before the result is returned. -/
theorem download_checksum_short_circuit (hashOf : List Nat → String)
    (source : DataSourceL) (fetch : Nat → Except String (List Nat))
    (maxRetries : Nat) (expected : String) (body : List Nat)
    (hck : source.checksum = some expected)
    (hfetch : fetch 0 = .ok body)
    (hmismatch : pyToLower (hashOf body) ≠ pyToLower expected) :
    (downloadFile hashOf source fetch maxRetries).1.success = false ∧
    (downloadFile hashOf source fetch maxRetries).1.attempts = 1 ∧
    (downloadFile hashOf source fetch maxRetries).2 = none := by
  have hv : verifyChecksum hashOf body expected = false := by
    simp [verifyChecksum, hmismatch]
  simp [downloadFile, downloadFileGo, downloadWithProgress, hck, hfetch, hv]

/-- Witness for `download_checksum_short_circuit`: a source whose
configured checksum is "ff" while every body hashes to "00". -/
theorem download_checksum_short_circuit_witness :
    (downloadFile (fun _ => "00") { checksum := some "ff" }
        (fun _ => .ok [1, 2, 3]) 3).1.success = false ∧
    (downloadFile (fun _ => "00") { checksum := some "ff" }
        (fun _ => .ok [1, 2, 3]) 3).1.attempts = 1 ∧
    (downloadFile (fun _ => "00") { checksum := some "ff" }
        (fun _ => .ok [1, 2, 3]) 3).2 = none :=
  download_checksum_short_circuit (fun _ => "00") { checksum := some "ff" }
    (fun _ => .ok [1, 2, 3]) 3 "ff" [1, 2, 3] rfl rfl (by decide)

/-! ## Claim C7 — `DataTransformer.transform_file` abort ceiling

Source (`transform.py` lines 283-339).  Per row the generator increments
`records_processed`, transforms the row, and on validation errors
increments `records_invalid`, stores at most the first 10 errors of the
row (`result.errors.extend(errors[:10])`) and then breaks out when
`len(result.errors) >= max_errors_before_abort` — i.e. the abort is
driven by the number of STORED ERROR ENTRIES reaching the ceiling, not by
the invalid-record count exceeding it, and the aborting row is counted
but not yielded.

The per-row outcome of `transform_row` is an oracle: `rows` lists, for
each data row in file order, the validation errors that `transform_row`
reports for it (`[]` = valid row). -/

/-- `TransformResult` (`transform.py` lines 72-87), with `errors` the
stored `ValidationError` messages and `warnings` as in the source. -/
structure TransformResultL where
  success : Bool := true
  records_processed : Nat := 0
  records_valid : Nat := 0
  records_invalid : Nat := 0
  errors : List String := []
  warnings : List String := []
deriving DecidableEq

/-- `if limit and result.records_processed >= limit:` — Python falsiness
makes `limit = 0` behave as "no limit". -/
def limitReached (limit : Option Nat) (processed : Nat) : Bool :=
  match limit with
  | some l => decide (l ≠ 0) && decide (l ≤ processed)
  | none => false

/-- The row loop of `transform_file`.  Returns the final
`TransformResult` and the (1-based) row numbers that were yielded. -/
def transformFileGo (skipInvalid : Bool) (maxErrors : Nat)
    (limit : Option Nat) :
    List (List String) → Nat → TransformResultL → List Nat →
      TransformResultL × List Nat
  | [], _rowNum, res, yielded => (res, yielded.reverse)
  | errs :: rest, rowNum, res, yielded =>
    let res := { res with records_processed := res.records_processed + 1 }
    if errs.isEmpty then
      let res := { res with records_valid := res.records_valid + 1 }
      let yielded := rowNum :: yielded
      if limitReached limit res.records_processed then (res, yielded.reverse)
      else transformFileGo skipInvalid maxErrors limit rest (rowNum + 1) res yielded
    else
      let res := { res with
        records_invalid := res.records_invalid + 1,
        errors := res.errors ++ errs.take 10 }
      if ¬ skipInvalid then
        ({ res with success := false }, yielded.reverse)
      else if maxErrors ≤ res.errors.length then
        ({ res with
            success := false,
            warnings := res.warnings ++
              ["Aborted after " ++ toString res.records_invalid ++
                " invalid records"] }, yielded.reverse)
      else
        let yielded := rowNum :: yielded
        if limitReached limit res.records_processed then (res, yielded.reverse)
        else transformFileGo skipInvalid maxErrors limit rest (rowNum + 1) res yielded

/-- `DataTransformer.transform_file` over the per-row validation-error
oracle, starting at row 1 with a fresh result. -/
def transformFile (skipInvalid : Bool) (maxErrors : Nat) (limit : Option Nat)
    (rows : List (List String)) : TransformResultL × List Nat :=
  transformFileGo skipInvalid maxErrors limit rows 1 {} []

/-- Total number of error entries the loop would store for `rows`:
at most 10 per row (`errors[:10]`). -/
def storedTotal (rows : List (List String)) : Nat :=
  (rows.map (fun e => min 10 e.length)).sum

/-- C7 counterexample: ceiling 2, three rows of which the first two are
invalid (one stored error each) and the third valid.  The run stops after
row 2 — the invalid count (2) never exceeded the ceiling (2), yet row 3
was never processed — refuting "stops ... exactly when the number of
invalid records exceeds the ceiling; at or below the ceiling ...
processing of subsequent rows continues". -/
theorem transform_file_abort_claim_false :
    (transformFile true 2 none [["e1"], ["e2"], []]).1.records_invalid = 2 ∧
    (transformFile true 2 none [["e1"], ["e2"], []]).1.records_invalid ≤ 2 ∧
    (transformFile true 2 none [["e1"], ["e2"], []]).1.records_processed = 2 ∧
    (transformFile true 2 none [["e1"], ["e2"], []]).1.success = false ∧
    (transformFile true 2 none [["e1"], ["e2"], []]).2 = [1] := by
  refine ⟨by decide, by decide, by decide, by decide, by decide⟩

/-- Helper: the loop invariant for the abort characterization.  With
invalid rows skipped and no row limit, starting from a still-successful
result whose stored-error count is below the ceiling, the loop ends
unsuccessfully exactly when the stored-error entries of the remaining
rows push the total to the ceiling; otherwise every remaining row is
processed. -/
theorem transformFileGo_abort_iff (maxErrors : Nat)
    (rows : List (List String)) :
    ∀ rowNum res yielded, res.success = true →
      res.errors.length < maxErrors →
      ((transformFileGo true maxErrors none rows rowNum res yielded).1.success
          = false ↔
        maxErrors ≤ res.errors.length + storedTotal rows) ∧
      (res.errors.length + storedTotal rows < maxErrors →
        (transformFileGo true maxErrors none rows rowNum res
            yielded).1.records_processed =
          res.records_processed + rows.length) := by
  induction rows with
  | nil =>
    intro rowNum res yielded hsucc hlt
    simp [transformFileGo, storedTotal, hsucc]
    omega
  | cons errs rest ih =>
    intro rowNum res yielded hsucc hlt
    by_cases hempty : errs.isEmpty
    · have hz : errs.length = 0 := by
        simpa [List.isEmpty_iff, List.length_eq_zero] using hempty
      have hgo : transformFileGo true maxErrors none (errs :: rest) rowNum res
          yielded =
          transformFileGo true maxErrors none rest (rowNum + 1)
            { res with
              records_processed := res.records_processed + 1,
              records_valid := res.records_valid + 1 }
            (rowNum :: yielded) := by
        simp [transformFileGo, hempty, limitReached]
      have ih' := ih (rowNum + 1)
        { res with
          records_processed := res.records_processed + 1,
          records_valid := res.records_valid + 1 }
        (rowNum :: yielded) hsucc hlt
      rw [hgo]
      constructor
      · rw [ih'.1]
        simp [storedTotal, hz]
      · intro hbelow
        have hbelow' : res.errors.length + storedTotal rest < maxErrors := by
          simp [storedTotal, hz] at hbelow
          simpa [storedTotal] using hbelow
        have := ih'.2 hbelow'
        simp only [this]
        simp [List.length_cons]
        omega
    · have hne : ¬ errs.isEmpty = true := hempty
      set res1 : TransformResultL :=
        { res with
          records_processed := res.records_processed + 1,
          records_invalid := res.records_invalid + 1,
          errors := res.errors ++ errs.take 10 } with hres1
      have herrlen : res1.errors.length =
          res.errors.length + min 10 errs.length := by
        simp [hres1, List.length_take]
      by_cases habort : maxErrors ≤ res.errors.length + min 10 errs.length
      · have hgo : (transformFileGo true maxErrors none (errs :: rest) rowNum res
            yielded).1 =
            { res1 with
                success := false,
                warnings := res1.warnings ++
                  ["Aborted after " ++ toString res1.records_invalid ++
                    " invalid records"] } := by
          simp [transformFileGo, hne, habort, hres1]
        constructor
        · rw [hgo]
          simp only [storedTotal, List.map_cons, List.sum_cons]
          constructor
          · intro _
            omega
          · intro _; trivial
        · intro hbelow
          exfalso
          simp only [storedTotal, List.map_cons, List.sum_cons] at hbelow
          omega
      · have hgo : transformFileGo true maxErrors none (errs :: rest) rowNum res
            yielded =
            transformFileGo true maxErrors none rest (rowNum + 1) res1
              (rowNum :: yielded) := by
          simp [transformFileGo, hne, habort, limitReached, hres1]
        have hlt1 : res1.errors.length < maxErrors := by
          rw [herrlen]; omega
        have ih' := ih (rowNum + 1) res1 (rowNum :: yielded) (by simp [hres1, hsucc])
          hlt1
        rw [hgo]
        constructor
        · rw [ih'.1, herrlen]
          simp only [storedTotal, List.map_cons, List.sum_cons]
          omega
        · intro hbelow
          simp only [storedTotal, List.map_cons, List.sum_cons] at hbelow
          have hbelow' : res1.errors.length + storedTotal rest < maxErrors := by
            rw [herrlen]
            simp only [storedTotal]
            omega
          have := ih'.2 hbelow'
          simp only [this]
          simp [hres1, List.length_cons]
          omega

/-- C7 amended: with invalid rows skipped (the configuration of the
claim) and a positive ceiling, `transform_file` stops early exactly when
the number of stored validation-error entries — at most 10 kept per
invalid row — reaches (`>=`) `maxErrorsBeforeAbort`; while the stored
count stays below the ceiling, invalid rows are counted and every row of
the file is processed. -/
theorem transform_file_abort_amended (maxErrors : Nat)
    (rows : List (List String)) (hpos : 0 < maxErrors) :
    ((transformFile true maxErrors none rows).1.success = false ↔
      maxErrors ≤ storedTotal rows) ∧
    (storedTotal rows < maxErrors →
      (transformFile true maxErrors none rows).1.records_processed =
        rows.length) := by
  have h := transformFileGo_abort_iff maxErrors rows 1 {} [] rfl (by simpa using hpos)
  constructor
  · simpa [transformFile] using h.1
  · intro hbelow
    have := h.2 (by simpa using hbelow)
    simpa [transformFile] using this

/-- Witness for `transform_file_abort_amended`: ceiling 2, one invalid
row with one error, one valid row — the run is not aborted and both rows
are processed. -/
theorem transform_file_abort_amended_witness :
    ¬ (transformFile true 2 none [["e1"], []]).1.success = false ∧
    (transformFile true 2 none [["e1"], []]).1.records_processed = 2 := by
  have h := transform_file_abort_amended 2 [["e1"], []] (by decide)
  exact ⟨fun hc => by have := h.1.mp hc; revert this; decide,
    h.2 (by decide)⟩

/-! ## Claim C1 — `LoadManager.bulk_create` batch-failure semantics

Source (`load.py` lines 113-238).  The whole record loop — including
every `_flush_buffer` call — sits inside a single `with
transaction.atomic():` block.  `_flush_buffer` increments
`records_failed` by the batch size, records a batch error (if fewer than
100 errors are stored) and then RE-RAISES; the exception leaves the
atomic block (rolling back every insert of this call, matching the class
docstring "Rollback on errors") and is caught by the outer `except`,
which sets `success = False`.

The database is a list of committed rows; per-record construction
failures (`model_class(**record)` raising) and per-batch flush failures
(`bulk_create` raising) are oracles. -/

/-- `LoadResult` (`load.py` lines 25-39), minus timing/naming. -/
structure LoadResultLM where
  success : Bool := true
  records_loaded : Nat := 0
  records_failed : Nat := 0
  errors : List String := []
deriving DecidableEq

/-- `result.errors.append(msg)` guarded by `len(result.errors) < 100`. -/
def appendErrorCapped (errs : List String) (msg : String) : List String :=
  if errs.length < 100 then errs ++ [msg] else errs

/-- `LoadManager._flush_buffer`: on success the batch is written and
`records_loaded` grows by the batch size; on failure `records_failed`
grows by the batch size, a batch error is recorded, and the exception is
re-raised (modelled as `.error`, carrying the updated result object —
Python result-object mutations survive the transaction rollback). -/
def flushBuffer {α : Type} (flushFails : List α → Bool) (buffer : List α)
    (res : LoadResultLM) (db : List α) :
    Except LoadResultLM (LoadResultLM × List α) :=
  if flushFails buffer then
    .error { res with
              records_failed := res.records_failed + buffer.length,
              errors := appendErrorCapped res.errors "Batch error" }
  else
    .ok ({ res with records_loaded := res.records_loaded + buffer.length },
      db ++ buffer)

/-- The record loop of `bulk_create` inside the transaction:
buffer records, flush at `batch_size`, final flush at the end.
`.error` = an exception escaping the atomic block. -/
def bulkCreateGo {α : Type} (batchSize : Nat) (initFails : α → Bool)
    (flushFails : List α → Bool) :
    List α → List α → LoadResultLM → List α →
      Except LoadResultLM (LoadResultLM × List α)
  | [], buffer, res, db =>
    if buffer.isEmpty then .ok (res, db)
    else flushBuffer flushFails buffer res db
  | r :: rs, buffer, res, db =>
    if initFails r then
      bulkCreateGo batchSize initFails flushFails rs buffer
        { res with
            records_failed := res.records_failed + 1,
            errors := appendErrorCapped res.errors "Record error" } db
    else
      let buffer := buffer ++ [r]
      if batchSize ≤ buffer.length then
        match flushBuffer flushFails buffer res db with
        | .error res => .error res
        | .ok (res, db) => bulkCreateGo batchSize initFails flushFails rs [] res db
      else bulkCreateGo batchSize initFails flushFails rs buffer res db

/-- `LoadManager.bulk_create`: run the loop inside one transaction; an
escaping exception rolls the database back to its state at entry and the
outer `except` marks the result failed and appends the load error. -/
def bulkCreate {α : Type} (batchSize : Nat) (initFails : α → Bool)
    (flushFails : List α → Bool) (records : List α) (db : List α) :
    LoadResultLM × List α :=
  match bulkCreateGo batchSize initFails flushFails records [] {} db with
  | .ok (res, db') => (res, db')
  | .error res =>
    ({ res with success := false,
                errors := res.errors ++ ["Load failed"] }, db)

/-- C1 counterexample: batch size 1, records `[1, 2]`, no construction
failures, and a flush failure on exactly the batch `[2]`.  The first
batch `[1]` is flushed inside the transaction, the second batch's flush
fails; `records_failed` is incremented by the failing batch's size (1),
but the whole transaction rolls back: the final database is empty, so the
earlier batch did NOT remain committed — refuting "every batch already
committed earlier in the same call remains committed". -/
theorem bulk_create_claim_false :
    (bulkCreate 1 (fun _ => false) (fun b => b = [2]) [1, 2]
        ([] : List Nat)).1.records_failed = 1 ∧
    (bulkCreate 1 (fun _ => false) (fun b => b = [2]) [1, 2]
        ([] : List Nat)).1.records_loaded = 1 ∧
    (bulkCreate 1 (fun _ => false) (fun b => b = [2]) [1, 2]
        ([] : List Nat)).1.success = false ∧
    (bulkCreate 1 (fun _ => false) (fun b => b = [2]) [1, 2]
        ([] : List Nat)).2 = [] := by
  refine ⟨by decide, by decide, by decide, by decide⟩

/-- Helper: the loop never touches the `success` flag, so a normally
completed loop hands back a result whose `success` equals the initial
one. -/
theorem bulkCreateGo_ok_success {α : Type} (batchSize : Nat)
    (initFails : α → Bool) (flushFails : List α → Bool) :
    ∀ (records buffer : List α) (res : LoadResultLM) (db : List α)
      (out : LoadResultLM × List α),
      bulkCreateGo batchSize initFails flushFails records buffer res db =
        .ok out →
      out.1.success = res.success := by
  intro records
  induction records with
  | nil =>
    intro buffer res db out hgo
    by_cases hb : buffer.isEmpty
    · simp [bulkCreateGo, hb] at hgo
      rw [← hgo]
    · simp only [bulkCreateGo, hb, if_false, Bool.false_eq_true, if_neg,
        not_false_eq_true] at hgo
      unfold flushBuffer at hgo
      by_cases hf : flushFails buffer
      · simp [hf] at hgo
      · simp [hf] at hgo
        rw [← hgo]
  | cons r rs ih =>
    intro buffer res db out hgo
    by_cases hi : initFails r
    · simp only [bulkCreateGo, hi, if_pos] at hgo
      have h2 := ih buffer _ db out hgo
      exact h2
    · simp only [bulkCreateGo, hi, Bool.false_eq_true, if_neg,
        not_false_eq_true] at hgo
      by_cases hsz : batchSize ≤ (buffer ++ [r]).length
      · rw [if_pos hsz] at hgo
        unfold flushBuffer at hgo
        by_cases hf : flushFails (buffer ++ [r])
        · simp [hf] at hgo
        · simp only [hf, Bool.false_eq_true, if_neg, not_false_eq_true] at hgo
          have h2 := ih [] _ _ out hgo
          exact h2
      · rw [if_neg hsz] at hgo
        exact ih (buffer ++ [r]) res db out hgo

/-- C1 amended: when the flush of a batch fails, `records_failed` is
incremented by that batch's size and the exception is re-raised out of
the single transaction wrapping ALL batches of the call, so the database
rolls back to its state before the call — batches committed earlier in
the same call do NOT remain committed — and the call returns with
`success = False`.  (First conjunct: the per-batch failure accounting of
`_flush_buffer`; second: any unsuccessful `bulk_create` leaves the
database untouched; third: the concrete two-batch scenario, in which the
first batch was flushed but is absent from the final database.) -/
theorem bulk_create_amended {α : Type} (flushFails : List α → Bool)
    (buffer : List α) (res : LoadResultLM) (db : List α)
    (records db2 : List α) (batchSize : Nat) (initFails : α → Bool)
    (hfail : flushFails buffer = true) :
    (flushBuffer flushFails buffer res db =
      .error { res with
                records_failed := res.records_failed + buffer.length,
                errors := appendErrorCapped res.errors "Batch error" }) ∧
    ((bulkCreate batchSize initFails flushFails records db2).1.success = false →
      (bulkCreate batchSize initFails flushFails records db2).2 = db2) ∧
    (bulkCreate 1 (fun _ => false) (fun b => b = [2]) [1, 2]
        ([] : List Nat)).1.records_failed = 1 ∧
    (bulkCreate 1 (fun _ => false) (fun b => b = [2]) [1, 2]
        ([] : List Nat)).2 = [] := by
  refine ⟨by simp [flushBuffer, hfail], ?_, by decide, by decide⟩
  intro hsucc
  unfold bulkCreate at hsucc ⊢
  cases hgo : bulkCreateGo batchSize initFails flushFails records [] {} db2 with
  | ok p =>
    exfalso
    rw [hgo] at hsucc
    have hp : p.1.success =
        (({} : LoadResultLM)).success :=
      bulkCreateGo_ok_success batchSize initFails flushFails records [] {} db2
        p hgo
    simp at hsucc
    rw [hsucc] at hp
    exact absurd hp.symm (by decide)
  | error r => simp [hgo]

/-- Witness for `bulk_create_amended` at the concrete failing scenario:
the failed call indeed hands the initial (empty) database back. -/
theorem bulk_create_amended_witness :
    (bulkCreate 1 (fun _ => false) (fun b => b = [2]) [1, 2]
        ([] : List Nat)).2 = [] :=
  (bulk_create_amended (fun b => b = [2]) [2] {} ([] : List Nat) [1, 2]
      ([] : List Nat) 1 (fun _ => false) (by decide)).2.1 (by decide)

/-! ## Claim C3 — `ETLOrchestrator.execute` overall status

Source (`orchestrator.py` lines 173-338).  Per stage,
`_execute_download` / `_execute_extract` start with `success = True` and,
when some source failed, set
`success = (no failed source was required)` — so failures confined to
optional sources leave the stage successful.  `execute` raises (→ FAILED,
remaining stages skipped) only when a stage is unsuccessful AND
`continue_on_error` is false; at the end it sets COMPLETED when all
recorded stages succeeded, else PARTIAL.  `_execute_transform_load`
(lines 380-441) never sets `success = False`, so the final status is
decided by the download/extract stage successes.

Per-source outcomes are oracles `downloadOk` / `extractOk`. -/

/-- `PipelineStage` (orchestrator stages recorded on the result). -/
inductive PipelineStageL where
  | download
  | extract
  | load
deriving DecidableEq

/-- `PipelineStatus`. -/
inductive PipelineStatusL where
  | NOT_STARTED
  | RUNNING
  | COMPLETED
  | FAILED
  | PARTIAL
deriving DecidableEq

/-- Stage success as computed by `_execute_download` / `_execute_extract`:
initially true; if any source failed, true iff no REQUIRED source
failed. -/
def stageSuccess (ok : DataSourceL → Bool) (sources : List DataSourceL) : Bool :=
  if (sources.filter (fun s => ok s)).length < sources.length then
    (sources.filter (fun s => !(ok s) && s.required)).isEmpty
  else true

/-- `ETLOrchestrator.execute` with no skip flags: the final status and
the list of stages that were executed (in order). -/
def executeP (continueOnError : Bool) (downloadOk extractOk : DataSourceL → Bool)
    (sources : List DataSourceL) : PipelineStatusL × List PipelineStageL :=
  let dl := stageSuccess downloadOk sources
  if ¬ dl ∧ ¬ continueOnError then (.FAILED, [.download])
  else
    let ex := stageSuccess extractOk sources
    if ¬ ex ∧ ¬ continueOnError then (.FAILED, [.download, .extract])
    else
      -- `_execute_transform_load` records the LOAD stage and never sets
      -- `success = False`
      let allSuccess := dl && ex && true
      if allSuccess then (.COMPLETED, [.download, .extract, .load])
      else (.PARTIAL, [.download, .extract, .load])

/-- C3 counterexample: one required source that succeeds everywhere plus
one optional source whose download fails; `continue_on_error` at its
default (true).  The run finishes COMPLETED, not PARTIAL: an optional
failure leaves the stage successful (it is only recorded in the stage's
error string), refuting "a failed optional source yields overall status
PARTIAL". -/
theorem execute_optional_failure_claim_false :
    (executeP true
        (fun s => s.required)
        (fun _ => true)
        [{ name := "req", required := true },
         { name := "opt", required := false }]).1 = .COMPLETED ∧
    (executeP true
        (fun s => s.required)
        (fun _ => true)
        [{ name := "req", required := true },
         { name := "opt", required := false }]).1 ≠ .PARTIAL := by
  constructor <;> decide

/-- Helper: if every required source passes a stage, that stage is
successful. -/
theorem stageSuccess_of_required (ok : DataSourceL → Bool)
    (sources : List DataSourceL)
    (h : ∀ s ∈ sources, s.required = true → ok s = true) :
    stageSuccess ok sources = true := by
  unfold stageSuccess
  split
  · rw [List.isEmpty_iff, List.filter_eq_nil_iff]
    intro s hs
    simp only [Bool.and_eq_true, Bool.not_eq_true']
    intro hcon
    exact absurd (h s hs hcon.2) (by simp [hcon.1])
  · rfl

/-- C3 amended: a run in which every required source succeeds finishes
COMPLETED even when optional sources fail (the failures are recorded in
the stage error string only); a run in which a required source fails at
download with `continueOnError = false` finishes FAILED and executes no
stage after Download.  (PARTIAL arises instead when a required source
fails and `continueOnError` is true.) -/
theorem execute_status_amended (continueOnError : Bool)
    (downloadOk extractOk : DataSourceL → Bool) (sources : List DataSourceL) :
    ((∀ s ∈ sources, s.required = true → downloadOk s = true) →
      (∀ s ∈ sources, s.required = true → extractOk s = true) →
      (executeP continueOnError downloadOk extractOk sources).1 = .COMPLETED) ∧
    (stageSuccess downloadOk sources = false → continueOnError = false →
      (executeP continueOnError downloadOk extractOk sources).1 = .FAILED ∧
      (executeP continueOnError downloadOk extractOk sources).2 = [.download]) ∧
    (stageSuccess downloadOk sources = false → continueOnError = true →
      (executeP continueOnError downloadOk extractOk sources).1 = .PARTIAL) := by
  refine ⟨?_, ?_, ?_⟩
  · intro hdl hex
    have h1 := stageSuccess_of_required downloadOk sources hdl
    have h2 := stageSuccess_of_required extractOk sources hex
    simp [executeP, h1, h2]
  · intro hdl hcont
    subst hcont
    simp [executeP, hdl]
  · intro hdl hcont
    subst hcont
    simp [executeP, hdl]

/-- Witness for `execute_status_amended`: with a single required source
whose download fails and `continueOnError = false`, the run is FAILED and
only the Download stage ran. -/
theorem execute_status_amended_witness :
    (executeP false (fun _ => false) (fun _ => true)
        [{ name := "req", required := true }]).1 = .FAILED ∧
    (executeP false (fun _ => false) (fun _ => true)
        [{ name := "req", required := true }]).2 = [.download] :=
  (execute_status_amended false (fun _ => false) (fun _ => true)
      [{ name := "req", required := true }]).2.1 (by decide) rfl

/-! ## Python numeric parsing helpers

`parsePyInt` models `int(s)` on an optionally signed digit string and
`parsePyFloat` models `float(s)` on plain decimal notation (the only
shapes occurring in the claims; scientific notation is never exercised by
the embedded call sites).  `ModelLoader._safe_int` is
`int(float(str(v).strip()))`, i.e. parse as decimal then truncate toward
zero; `ModelLoader._safe_decimal` is `float(str(v).strip())`. -/

/-- Parse a non-empty all-digit character list. -/
def digitsToNat? (cs : List Char) : Option Nat :=
  if cs ≠ [] ∧ cs.all Char.isDigit then
    some (cs.foldl (fun n c => n * 10 + (c.toNat - 48)) 0)
  else none

/-- `int(s)` on an optionally signed digit string. -/
def parsePyInt (s : String) : Option Int :=
  match s.toList with
  | '-' :: rest => (digitsToNat? rest).map (fun n => -(n : Int))
  | '+' :: rest => (digitsToNat? rest).map (fun n => (n : Int))
  | cs => (digitsToNat? cs).map (fun n => (n : Int))

/-- The textual analysis of `float(s)` on plain (optionally signed)
decimal notation: sign, integer part, fraction digits value and fraction
length.  (Separated from the value construction so that the string
processing stays within kernel-reducible `Nat`/`Bool` computation.) -/
def parseDecParts (s : String) : Option (Bool × Nat × Nat × Nat) :=
  let signed : Bool × String :=
    match s.toList with
    | '-' :: rest => (true, String.mk rest)
    | '+' :: rest => (false, String.mk rest)
    | _ => (false, s)
  match splitOnChar '.' signed.2 with
  | [a] => (digitsToNat? a.toList).map (fun n => (signed.1, n, 0, 0))
  | [a, b] =>
    match digitsToNat? a.toList, digitsToNat? b.toList with
    | some n, some f => some (signed.1, n, f, b.length)
    | _, _ => none
  | _ => none

/-- `float(s)` on plain (optionally signed) decimal notation, as `ℚ`. -/
def parsePyFloat (s : String) : Option ℚ :=
  (parseDecParts s).map (fun p =>
    let v : ℚ := (p.2.1 : ℚ) + (p.2.2.1 : ℚ) / (10 : ℚ) ^ p.2.2.2
    if p.1 then -v else v)

/-- Truncation toward zero, as Python `int(float)`. -/
def pyTrunc (q : ℚ) : Int :=
  if q < 0 then -(Int.floor (-q)) else Int.floor q

/-- `ModelLoader._safe_int` on an optional string value. -/
def safeInt (v : Option String) : Option Int :=
  v.bind (fun s => (parsePyFloat (pyStrip s)).map pyTrunc)

/-- `ModelLoader._safe_decimal` on an optional string value. -/
def safeDecimal (v : Option String) : Option ℚ :=
  v.bind (fun s => parsePyFloat (pyStrip s))

/-! ## Claim C4 — `ModelLoader.load_property_records` with `truncate=false`

Source (`model_loader.py` lines 308-400) and `data/models.py` line 24.
The loader skips records with an empty (stripped) account number, builds
a `PropertyRecord` per remaining row and writes batches with
`bulk_create(buf, ignore_conflicts=True)`.  Postgres `ON CONFLICT DO
NOTHING` suppresses only unique-constraint violations —
`PropertyRecord.account_number` is declared `db_index=True` but NOT
unique, and the model has no other unique constraint (the surrogate
primary key is auto-assigned and never conflicts) — so in append mode
nothing is ever skipped, and no pre-fetched existing-key set is consulted
anywhere in this method. -/

/-- The fields of a transformed `real_acct` record that
`load_property_records` reads (string-valued as in the row dict; numeric
fields as their raw text). -/
structure PropInRec where
  account_number : String := ""
  street_number : String := ""
  street_name : String := ""
  street_suffix : String := ""
  site_addr_1 : String := ""
  city : String := ""
  zipcode : String := ""
  owner_name : String := ""
  value : Option String := none
  assessed_value : Option String := none
  building_area : Option String := none
  land_area : Option String := none
deriving DecidableEq

/-- A stored `PropertyRecord` row (the fields the loader sets). -/
structure PropRow where
  account_number : String
  address : String
  city : String
  zipcode : String
  owner_name : String
  value : Option ℚ
  assessed_value : Option ℚ
  building_area : Option ℚ
  land_area : Option ℚ
  street_number : String
  street_name : String
deriving DecidableEq

/-- `ModelLoadResult` (`model_loader.py` lines 25-42), minus timing. -/
structure ModelLoadResultL where
  records_loaded : Nat := 0
  records_invalid : Nat := 0
  records_skipped : Nat := 0
  error : Option String := none
deriving DecidableEq

/-- The address-assembly and row construction of `load_property_records`
(lines 350-370), given the already-stripped non-empty account number. -/
def buildPropRow (r : PropInRec) (acct : String) : PropRow :=
  let street_num := pyStrip r.street_number
  let street_name_base := pyStrip r.street_name
  let street_suffix := pyStrip r.street_suffix
  let street_name :=
    if street_suffix ≠ "" then
      pyStrip (street_name_base ++ " " ++ street_suffix)
    else street_name_base
  let site_addr := pyStrip r.site_addr_1
  let address :=
    if site_addr ≠ "" then site_addr
    else pyStrip (street_num ++ " " ++ street_name)
  { account_number := acct,
    address := address.take 255,
    city := r.city.take 100,
    zipcode := r.zipcode.take 20,
    owner_name := r.owner_name.take 255,
    value := safeDecimal r.value,
    assessed_value := safeDecimal r.assessed_value,
    building_area := safeDecimal r.building_area,
    land_area := safeDecimal r.land_area,
    street_number := street_num.take 16,
    street_name := street_name.take 128 }

/-- Django `bulk_create(objs, ignore_conflicts=True)` against a table:
each object is inserted unless it collides with an existing (or
just-inserted) row on some unique constraint, given as key projections. -/
def insertIgnoreConflicts (uniqueKeys : List (PropRow → String))
    (tbl : List PropRow) (objs : List PropRow) : List PropRow :=
  objs.foldl
    (fun t o =>
      if uniqueKeys.any (fun k => (t.map k).contains (k o)) then t
      else t ++ [o])
    tbl

/-- The unique constraints of `PropertyRecord` (`models.py` lines 15-43):
none — `account_number` carries only a non-unique index. -/
def propertyUniqueKeys : List (PropRow → String) := []

/-- The record loop of `load_property_records` inside the transaction. -/
def loadPropertyRecordsGo (batchSize : Nat) :
    List PropInRec → List PropRow → ModelLoadResultL → List PropRow →
      ModelLoadResultL × List PropRow
  | [], buf, res, tbl =>
    if buf.isEmpty then (res, tbl)
    else ({ res with records_loaded := res.records_loaded + buf.length },
      insertIgnoreConflicts propertyUniqueKeys tbl buf)
  | r :: rs, buf, res, tbl =>
    let acct := pyStrip r.account_number
    if acct = "" then
      loadPropertyRecordsGo batchSize rs buf
        { res with records_skipped := res.records_skipped + 1 } tbl
    else
      let buf := buf ++ [buildPropRow r acct]
      if batchSize ≤ buf.length then
        loadPropertyRecordsGo batchSize rs []
          { res with records_loaded := res.records_loaded + buf.length }
          (insertIgnoreConflicts propertyUniqueKeys tbl buf)
      else loadPropertyRecordsGo batchSize rs buf res tbl

/-- `ModelLoader.load_property_records`: optional truncate, then the
batched loop. -/
def loadPropertyRecords (batchSize : Nat) (truncate : Bool)
    (records : List PropInRec) (tbl : List PropRow) :
    ModelLoadResultL × List PropRow :=
  let tbl := if truncate then [] else tbl
  loadPropertyRecordsGo batchSize records [] {} tbl

/-- The rows the loop builds for a record list (skipping empty stripped
account numbers). -/
def builtRows (records : List PropInRec) : List PropRow :=
  records.filterMap (fun r =>
    let acct := pyStrip r.account_number
    if acct = "" then none else some (buildPropRow r acct))

/-- C4 counterexample: a one-record file loaded twice with
`truncate = false` into an initially empty table.  The second run inserts
the record AGAIN — `ignore_conflicts=True` has no unique constraint on
`PropertyRecord` to act on — so the table doubles from 1 row to 2 rows,
refuting "every record whose natural key already exists in the target
table is skipped as a duplicate, so the loaded-record count does not
increase". -/
theorem load_property_records_dedup_claim_false :
    ((loadPropertyRecords 5000 false [{ account_number := "A" }]
        []).2).length = 1 ∧
    ((loadPropertyRecords 5000 false [{ account_number := "A" }]
        (loadPropertyRecords 5000 false [{ account_number := "A" }]
          []).2).2).length = 2 ∧
    (1 : Nat) < 2 := by
  refine ⟨by decide, by decide, by decide⟩

/-- Helper: with no unique constraints, `ignore_conflicts` insertion is a
plain append. -/
theorem insertIgnoreConflicts_nil (tbl objs : List PropRow) :
    insertIgnoreConflicts propertyUniqueKeys tbl objs = tbl ++ objs := by
  induction objs generalizing tbl with
  | nil => simp [insertIgnoreConflicts]
  | cons o os ih =>
    simp only [insertIgnoreConflicts, propertyUniqueKeys, List.foldl_cons,
      List.any_nil, Bool.false_eq_true, if_neg, not_false_eq_true] at ih ⊢
    rw [ih (tbl ++ [o])]
    simp

/-- Helper: the loop appends exactly the built rows to the table and
counts them all as loaded. -/
theorem loadPropertyRecordsGo_spec (batchSize : Nat) :
    ∀ (records : List PropInRec) (buf : List PropRow)
      (res : ModelLoadResultL) (tbl : List PropRow),
      (loadPropertyRecordsGo batchSize records buf res tbl).2 =
        tbl ++ buf ++ builtRows records ∧
      (loadPropertyRecordsGo batchSize records buf res
          tbl).1.records_loaded =
        res.records_loaded + buf.length + (builtRows records).length := by
  intro records
  induction records with
  | nil =>
    intro buf res tbl
    by_cases hb : buf.isEmpty
    · have hbe : buf = [] := by simpa [List.isEmpty_iff] using hb
      simp [loadPropertyRecordsGo, hb, hbe, builtRows]
    · simp [loadPropertyRecordsGo, hb, builtRows, insertIgnoreConflicts_nil]
  | cons r rs ih =>
    intro buf res tbl
    by_cases hacct : pyStrip r.account_number = ""
    · have hbuilt : builtRows (r :: rs) = builtRows rs := by
        simp [builtRows, hacct]
      simp only [loadPropertyRecordsGo, hacct, if_pos]
      rw [hbuilt]
      exact ih buf _ tbl
    · have hbuilt : builtRows (r :: rs) =
          buildPropRow r (pyStrip r.account_number) :: builtRows rs := by
        simp [builtRows, hacct]
      simp only [loadPropertyRecordsGo, hacct, if_neg, not_false_eq_true]
      by_cases hsz : batchSize ≤ (buf ++ [buildPropRow r (pyStrip r.account_number)]).length
      · rw [if_pos hsz]
        have h := ih []
          { res with
              records_loaded :=
                res.records_loaded +
                  (buf ++ [buildPropRow r (pyStrip r.account_number)]).length }
          (insertIgnoreConflicts propertyUniqueKeys tbl
            (buf ++ [buildPropRow r (pyStrip r.account_number)]))
        rw [hbuilt]
        refine ⟨?_, ?_⟩
        · rw [h.1, insertIgnoreConflicts_nil]
          simp
        · rw [h.2]
          simp only [List.length_append, List.length_cons, List.length_nil]
          omega
      · rw [if_neg hsz]
        have h := ih (buf ++ [buildPropRow r (pyStrip r.account_number)]) res tbl
        rw [hbuilt]
        refine ⟨?_, ?_⟩
        · rw [h.1]; simp
        · rw [h.2]
          simp only [List.length_append, List.length_cons, List.length_nil]
          omega

/-- C4 amended: with `truncate = false` a second load of the same records
appends every built row again — `PropertyRecord` has no unique constraint
on its natural key, so `ignore_conflicts=True` skips nothing and no
existing-key set is consulted — hence whenever the file contributes at
least one row, the table row count strictly increases on the second run
(by exactly the same amount as on the first). -/
theorem load_property_records_dedup_amended (batchSize : Nat)
    (records : List PropInRec) (tbl : List PropRow)
    (hne : builtRows records ≠ []) :
    ((loadPropertyRecords batchSize false records
        (loadPropertyRecords batchSize false records tbl).2).2).length =
      ((loadPropertyRecords batchSize false records tbl).2).length +
        (builtRows records).length ∧
    ((loadPropertyRecords batchSize false records tbl).2).length <
      ((loadPropertyRecords batchSize false records
        (loadPropertyRecords batchSize false records tbl).2).2).length := by
  have h1 := loadPropertyRecordsGo_spec batchSize records [] {} tbl
  have h2 := loadPropertyRecordsGo_spec batchSize records [] {}
    (loadPropertyRecordsGo batchSize records [] {} tbl).2
  constructor
  · simp only [loadPropertyRecords, if_neg, Bool.false_eq_true,
      not_false_eq_true]
    rw [h2.1]
    simp
  · simp only [loadPropertyRecords, if_neg, Bool.false_eq_true,
      not_false_eq_true]
    rw [h2.1]
    have : 0 < (builtRows records).length := by
      cases hb : builtRows records with
      | nil => exact absurd hb hne
      | cons x xs => simp
    simp only [List.length_append]
    omega

/-- Witness for `load_property_records_dedup_amended` at the one-record
scenario: the second run grows the table from 1 row to 2. -/
theorem load_property_records_dedup_amended_witness :
    ((loadPropertyRecords 5000 false [{ account_number := "A" }]
        (loadPropertyRecords 5000 false [{ account_number := "A" }]
          []).2).2).length =
      ((loadPropertyRecords 5000 false [{ account_number := "A" }]
        []).2).length + 1 :=
  by
    have h := load_property_records_dedup_amended 5000
      [{ account_number := "A" }] [] (by decide)
    simpa using h.1

/-! ## Claim C2 — fixtures aggregation and `load_building_details`

Sources: `fixtures_aggregator.py` (whole file) and `model_loader.py`
lines 104-209 and 422-487.

The aggregator streams the tab-delimited fixtures file, keeping per
`(account, building)` key the latest units seen for the codes RMB / RMF /
RMH; `get_bathroom_count = full_baths + half_baths * 0.5`.

`load_building_details`, however, constructs its `BuildingDetail` with
`bedrooms=self._get_bedrooms(account_num, building_num, record)` (lines
177-179) — and `account_num` / `building_num` are never bound in that
function (its locals are `acct`, `record`, `property_id`, ...), so Python
raises `NameError` on the first record that reaches the constructor; the
`except` at line 204 stores the message on the result, and the
transaction rolls back.  Name resolution is embedded explicitly: an
expression reads a name through `resolveName` against the set of locals
actually bound at that program point. -/

/-- The per-building accumulator of the aggregator (all three counters
default to 0.0). -/
structure FixtureCounts where
  bedrooms : ℚ := 0
  full_baths : ℚ := 0
  half_baths : ℚ := 0
deriving DecidableEq

/-- The aggregator's `fixtures_cache`: an association list keyed by
`(account_number, building_number)`. -/
abbrev FixMap : Type := List ((String × Int) × FixtureCounts)

/-- Dictionary lookup in the cache. -/
def fixLookup (m : FixMap) (k : String × Int) : Option FixtureCounts :=
  (m.find? (fun e => e.1 == k)).map (fun e => e.2)

/-- `fixtures_data[key][field] = units` on the defaultdict: update the
entry in place, or materialize the zero-initialized default first. -/
def fixUpdate (m : FixMap) (k : String × Int)
    (f : FixtureCounts → FixtureCounts) : FixMap :=
  if (List.find? (fun e => e.1 == k) m).isSome then
    m.map (fun e => if e.1 == k then (e.1, f e.2) else e)
  else m ++ [(k, f {})]

/-- One line of `FixturesAggregator.load_fixtures_file`
(lines 65-92): strip and tab-split, require ≥ 5 fields, parse account /
building / units, keep only the three room codes, last write wins. -/
def processFixtureLine (m : FixMap) (line : String) : FixMap :=
  match splitOnChar '\t' (pyStrip line) with
  | p0 :: p1 :: p2 :: _p3 :: p4 :: _ =>
    let account := pyStrip p0
    match parsePyInt (pyStrip p1) with
    | none => m
    | some bld =>
      let typ := pyStrip p2
      match parsePyFloat (pyStrip p4) with
      | none => m
      | some units =>
        if typ = "RMB" then
          fixUpdate m (account, bld) (fun c => { c with bedrooms := units })
        else if typ = "RMF" then
          fixUpdate m (account, bld) (fun c => { c with full_baths := units })
        else if typ = "RMH" then
          fixUpdate m (account, bld) (fun c => { c with half_baths := units })
        else m
  | _ => m

/-- `FixturesAggregator.load_fixtures_file` over the file's lines
(`next(f)` skips the header line). -/
def loadFixturesFile (lines : List String) : FixMap :=
  (lines.drop 1).foldl processFixtureLine []

/-- `FixturesAggregator.get_fixtures` (zeros when the key is absent). -/
def getFixtures (m : FixMap) (account : String) (building : Int) :
    FixtureCounts :=
  (fixLookup m (account, building)).getD {}

/-- `FixturesAggregator.get_bedroom_count` (`int(...)` truncates). -/
def getBedroomCount (m : FixMap) (account : String) (building : Int) : Int :=
  pyTrunc (getFixtures m account building).bedrooms

/-- `FixturesAggregator.get_bathroom_count`:
`full_baths + half_baths * 0.5`. -/
def getBathroomCount (m : FixMap) (account : String) (building : Int) : ℚ :=
  let fx := getFixtures m account building
  fx.full_baths + fx.half_baths * (1/2)

/-- The fields of a transformed `building_res` record that
`load_building_details` reads (numeric fields as their raw text, run
through `_safe_int` / `_safe_decimal` by the loader). -/
structure BldInRec where
  account_number : String := ""
  building_number : Option String := none
  building_type : String := ""
  building_style : String := ""
  building_class : String := ""
  quality_code : String := ""
  condition_code : String := ""
  year_built : Option String := none
  year_remodeled : Option String := none
  effective_year : Option String := none
  heat_area : Option String := none
  base_area : Option String := none
  gross_area : Option String := none
  stories : Option String := none
  foundation_type : String := ""
  exterior_wall : String := ""
  roof_cover : String := ""
  roof_type : String := ""
  bedrooms : Option String := none
  full_baths : Option String := none
  half_baths : Option String := none
  fireplaces : Option String := none
deriving DecidableEq

/-- A stored `BuildingDetail` row (the fields the loader sets). -/
structure BuildingRow where
  property_id : Nat
  account_number : String
  building_number : Option Int
  building_type : String
  building_style : String
  building_class : String
  quality_code : String
  condition_code : String
  year_built : Option Int
  year_remodeled : Option Int
  effective_year : Option Int
  heat_area : Option ℚ
  base_area : Option ℚ
  gross_area : Option ℚ
  stories : Option ℚ
  foundation_type : String
  exterior_wall : String
  roof_cover : String
  roof_type : String
  bedrooms : Option Int
  bathrooms : Option ℚ
  half_baths : Option Int
  fireplaces : Option Int
  is_active : Bool
  import_batch_id : String
deriving DecidableEq

/-- `ModelLoader._get_bedrooms`: fixtures first if positive, else the
record's own column. -/
def getBedroomsH (m : FixMap) (account : String) (building : Int)
    (record : BldInRec) : Option Int :=
  let c := getBedroomCount m account building
  if 0 < c then some c else safeInt record.bedrooms

/-- `ModelLoader._get_bathrooms`: fixtures first if positive, else
`full_baths + half_baths * 0.5` from the record (`None` when that total
is not positive). -/
def getBathroomsH (m : FixMap) (account : String) (building : Int)
    (record : BldInRec) : Option ℚ :=
  let c := getBathroomCount m account building
  if 0 < c then some c
  else
    let full := (safeDecimal record.full_baths).getD 0
    let half := (safeInt record.half_baths).getD 0
    let total := full + (half : ℚ) * (1/2)
    if 0 < total then some total else none

/-- `ModelLoader._get_half_baths`: the truncated fixtures value if
positive, else the record's own column. -/
def getHalfBathsH (m : FixMap) (account : String) (building : Int)
    (record : BldInRec) : Option Int :=
  let c := pyTrunc (getFixtures m account building).half_baths
  if 0 < c then some c else safeInt record.half_baths

/-- The local names bound in `load_building_details` at the point where
the `BuildingDetail(...)` constructor call is evaluated
(`model_loader.py` lines 120-157). -/
def buildingLoopScope : List String :=
  ["self", "records", "truncate", "batch_id", "BuildingDetail",
   "PropertyRecord", "start_time", "import_date", "result",
   "valid_accounts", "account_map", "buf", "record", "acct", "property_id"]

/-- Python name resolution: reading an unbound name raises `NameError`. -/
def resolveName (scope : List String) (n : String) : Except String Unit :=
  if scope.contains n then .ok ()
  else .error ("NameError: name " ++ n ++ " is not defined")

/-- The `BuildingDetail(...)` constructor call (`model_loader.py` lines
157-184).  Keyword arguments are evaluated left to right; every argument
up to `roof_type=` reads only bound locals, then
`bedrooms=self._get_bedrooms(account_num, building_num, record)` reads
`account_num`, which `load_building_details` never binds, raising
`NameError` before the constructor runs.  The final `pure` spells out the
row the call WOULD build (with the account and parsed building number the
helpers were evidently meant to receive); it is unreachable. -/
def constructBuildingDetail (m : FixMap) (record : BldInRec)
    (property_id : Nat) (acct : String) (batch_id : String) :
    Except String BuildingRow := do
  _ ← resolveName buildingLoopScope "property_id"
  _ ← resolveName buildingLoopScope "acct"
  _ ← resolveName buildingLoopScope "record"
  _ ← resolveName buildingLoopScope "account_num"
  _ ← resolveName buildingLoopScope "building_num"
  let building := (safeInt record.building_number).getD 0
  pure
    { property_id := property_id,
      account_number := acct,
      building_number := safeInt record.building_number,
      building_type := record.building_type.take 10,
      building_style := record.building_style.take 10,
      building_class := record.building_class.take 10,
      quality_code := record.quality_code.take 10,
      condition_code := record.condition_code.take 10,
      year_built := safeInt record.year_built,
      year_remodeled := safeInt record.year_remodeled,
      effective_year := safeInt record.effective_year,
      heat_area := safeDecimal record.heat_area,
      base_area := safeDecimal record.base_area,
      gross_area := safeDecimal record.gross_area,
      stories := safeDecimal record.stories,
      foundation_type := record.foundation_type.take 10,
      exterior_wall := record.exterior_wall.take 10,
      roof_cover := record.roof_cover.take 10,
      roof_type := record.roof_type.take 10,
      bedrooms := getBedroomsH m acct building record,
      bathrooms := getBathroomsH m acct building record,
      half_baths := getHalfBathsH m acct building record,
      fireplaces := safeInt record.fireplaces,
      is_active := true,
      import_batch_id := batch_id }

/-- The record loop of `load_building_details` inside the transaction.
`.error` = an exception escaping the atomic block, carrying the message
and the result object as mutated so far.  (`BuildingDetail` has indexes
but no unique constraint, so `ignore_conflicts=True` inserts append.) -/
def loadBuildingDetailsGo (batchSize : Nat) (m : FixMap)
    (valid_accounts : List String) (account_map : String → Option Nat)
    (batch_id : String) :
    List BldInRec → List BuildingRow → ModelLoadResultL → List BuildingRow →
      Except (String × ModelLoadResultL) (ModelLoadResultL × List BuildingRow)
  | [], buf, res, tbl =>
    if buf.isEmpty then .ok (res, tbl)
    else .ok ({ res with records_loaded := res.records_loaded + buf.length },
      tbl ++ buf)
  | r :: rs, buf, res, tbl =>
    let acct := pyStrip r.account_number
    if acct = "" then
      loadBuildingDetailsGo batchSize m valid_accounts account_map batch_id rs
        buf { res with records_skipped := res.records_skipped + 1 } tbl
    else if ¬ valid_accounts.contains acct then
      loadBuildingDetailsGo batchSize m valid_accounts account_map batch_id rs
        buf { res with records_invalid := res.records_invalid + 1 } tbl
    else
      match account_map acct with
      | none =>
        loadBuildingDetailsGo batchSize m valid_accounts account_map batch_id
          rs buf { res with records_invalid := res.records_invalid + 1 } tbl
      | some property_id =>
        -- `if not property_id:` — a 0 id is falsy in Python
        if property_id = 0 then
          loadBuildingDetailsGo batchSize m valid_accounts account_map batch_id
            rs buf { res with records_invalid := res.records_invalid + 1 } tbl
        else
          match constructBuildingDetail m r property_id acct batch_id with
          | .error e => .error (e, res)
          | .ok row =>
            let buf := buf ++ [row]
            if batchSize ≤ buf.length then
              loadBuildingDetailsGo batchSize m valid_accounts account_map
                batch_id rs []
                { res with records_loaded := res.records_loaded + buf.length }
                (tbl ++ buf)
            else
              loadBuildingDetailsGo batchSize m valid_accounts account_map
                batch_id rs buf res tbl

/-- `ModelLoader.load_building_details`: the truncate happens BEFORE the
transaction (and stays committed); an exception escaping the atomic block
rolls the table back to its state at transaction entry and the `except`
stores the message on the result. -/
def loadBuildingDetails (batchSize : Nat) (m : FixMap)
    (valid_accounts : List String) (account_map : String → Option Nat)
    (batch_id : String) (records : List BldInRec) (truncate : Bool)
    (tbl : List BuildingRow) : ModelLoadResultL × List BuildingRow :=
  let tbl0 := if truncate then [] else tbl
  match loadBuildingDetailsGo batchSize m valid_accounts account_map batch_id
      records [] {} tbl0 with
  | .ok (res, tbl') => (res, tbl')
  | .error (e, res) => ({ res with error := some e }, tbl0)

/-- The fixtures file of the claim's scenario (header plus the three
RMB/RMF/RMH rows for account `acct`, building 1). -/
def scenarioFixtureLines : List String :=
  ["acct\tbld_num\ttype\ttype_dscr\tunits",
   "acct\t1\tRMB\tRoom: Bedroom\t4.00",
   "acct\t1\tRMF\tRoom: Full Bath\t2.00",
   "acct\t1\tRMH\tRoom: Half Bath\t1.00"]

/-- The aggregator state after loading the scenario file. -/
def scenarioFixtures : FixMap := loadFixturesFile scenarioFixtureLines

/-- The `building_res` record of the claim's scenario. -/
def scenarioBuildingRecord : BldInRec :=
  { account_number := "acct", building_number := some "1" }

/-- The building-detail load of the claim's scenario: account `acct` is a
valid parent mapped to property id 1. -/
def scenarioLoad : ModelLoadResultL × List BuildingRow :=
  loadBuildingDetails 5000 scenarioFixtures ["acct"]
    (fun a => if a = "acct" then some 1 else none) "b1"
    [scenarioBuildingRecord] true []

/-- C2: the aggregator side of the claim holds — the scenario fixtures
give bedrooms 4, bathroom count 2.5 and half baths 1 for (`acct`, 1) —
but the building-detail load does NOT succeed and stores nothing: on the
first record that reaches the `BuildingDetail(...)` constructor, the code
reads the unbound names `account_num` / `building_num`
(`model_loader.py` lines 177-179; the bound local is `acct`), raising
`NameError`, which the `except` turns into a failed result with zero rows
loaded and an empty (truncated, rolled-back) table. -/
theorem building_details_fixture_enrichment_bug :
    (getFixtures scenarioFixtures "acct" 1).bedrooms = 4 ∧
    getBathroomCount scenarioFixtures "acct" 1 = 5/2 ∧
    (getFixtures scenarioFixtures "acct" 1).half_baths = 1 ∧
    scenarioLoad.1.error =
      some "NameError: name account_num is not defined" ∧
    scenarioLoad.1.records_loaded = 0 ∧
    scenarioLoad.2 = [] := by
  have hfix : getFixtures scenarioFixtures "acct" 1 =
      { bedrooms := ((4 : ℕ) : ℚ) + ((0 : ℕ) : ℚ) / (10 : ℚ) ^ (2 : ℕ),
        full_baths := ((2 : ℕ) : ℚ) + ((0 : ℕ) : ℚ) / (10 : ℚ) ^ (2 : ℕ),
        half_baths := ((1 : ℕ) : ℚ) + ((0 : ℕ) : ℚ) / (10 : ℚ) ^ (2 : ℕ) } :=
    rfl
  refine ⟨?_, ?_, ?_, by decide, by decide, by decide⟩
  · rw [hfix]; norm_num
  · unfold getBathroomCount
    rw [hfix]; norm_num
  · rw [hfix]; norm_num

end TaxProtestETL
